import Mathlib

/-!
Verification of the stage-classification and adaptive-threshold core of the
Solar-plant-monitoring pipeline.

Classifier side: `determine_stage` from `stage3_rule_based_analysis.py`
(boundaries `> 0.80` / `0.60 <= s <= 0.80`) and the variant from
`stage3_working.py` (boundaries `> 0.80` / `>= 0.70`).  Python floats are
modelled by `PyFloat`: a rational for every finite value plus `nan`,
`posInf`, `negInf`, with comparison semantics matching IEEE-754 as exposed
by Python (`nan` compares false with everything).

Learner side: the threshold computation of `stage5_self_learning.py`
(including its early `SystemExit` guards) and of `stage5_working.py`.
Scores are rationals; `numpy` mean and population standard deviation are
modelled exactly over the reals.  The 3-decimal `round` applied by both
scripts is modelled by `pyRound3`, which rounds the exact value with a tie
going to the even digit; the scripts round IEEE doubles, which agrees with
the exact-value rounding whenever the scaled value is not within the double
representation error of a half-integer tie.  Concrete band values are
therefore only asserted at such agreement points, and the quantified band
theorem asserts only the rounding-rule-independent bound of one unit in
the last rounded place.
-/

/-- The closed set of construction-stage labels, as the strings produced by
`determine_stage` in both stage-3 scripts. -/
inductive Stage where
  | foundation
  | mounting
  | installation
deriving DecidableEq, Repr

/-- Construction-maturity rank: Foundation < Mounting < Installation. -/
def stageRank : Stage → ℕ
  | .foundation => 0
  | .mounting => 1
  | .installation => 2

/-- Python float values: finite values are modelled exactly as rationals;
`nan`, `posInf` and `negInf` are the three non-finite values. -/
inductive PyFloat where
  | nan
  | posInf
  | negInf
  | finite (q : ℚ)
deriving DecidableEq, Repr

/-- Python `<` on floats: `nan` compares false with everything, the
infinities compare as expected, finite values compare as rationals. -/
def PyFloat.lt : PyFloat → PyFloat → Bool
  | .nan, _ => false
  | _, .nan => false
  | .negInf, .negInf => false
  | .negInf, _ => true
  | _, .negInf => false
  | .posInf, _ => false
  | .finite _, .posInf => true
  | .finite a, .finite b => decide (a < b)

/-- Python `<=` on floats: `nan` compares false with everything, each
infinity is `<=` itself, finite values compare as rationals. -/
def PyFloat.le : PyFloat → PyFloat → Bool
  | .nan, _ => false
  | _, .nan => false
  | .negInf, _ => true
  | _, .negInf => false
  | _, .posInf => true
  | .posInf, _ => false
  | .finite a, .finite b => decide (a ≤ b)

@[simp] theorem PyFloat.lt_finite_finite (a b : ℚ) :
    PyFloat.lt (.finite a) (.finite b) = decide (a < b) := rfl

@[simp] theorem PyFloat.le_finite_finite (a b : ℚ) :
    PyFloat.le (.finite a) (.finite b) = decide (a ≤ b) := rfl

/-- `determine_stage` from `stage3_rule_based_analysis.py`:
`if similarity_value > 0.80: installation
 elif 0.60 <= similarity_value <= 0.80: mounting
 else: foundation`.
The Python chained comparison `0.60 <= v <= 0.80` is the conjunction of the
two comparisons. -/
def determine_stage (similarity_value : PyFloat) : Stage :=
  if PyFloat.lt (.finite (80/100)) similarity_value then .installation
  else if PyFloat.le (.finite (60/100)) similarity_value &&
          PyFloat.le similarity_value (.finite (80/100)) then .mounting
  else .foundation

/-- `determine_stage` from `stage3_working.py`:
`if similarity > 0.80: installation
 elif similarity >= 0.70: mounting
 else: foundation`. -/
def determine_stage_working (similarity : PyFloat) : Stage :=
  if PyFloat.lt (.finite (80/100)) similarity then .installation
  else if PyFloat.le (.finite (70/100)) similarity then .mounting
  else .foundation

theorem determine_stage_finite (q : ℚ) :
    determine_stage (.finite q) =
      if 80/100 < q then .installation
      else if 60/100 ≤ q ∧ q ≤ 80/100 then .mounting
      else .foundation := by
  simp [determine_stage, Bool.and_eq_true, decide_eq_true_eq]

theorem determine_stage_working_finite (q : ℚ) :
    determine_stage_working (.finite q) =
      if 80/100 < q then .installation
      else if 70/100 ≤ q then .mounting
      else .foundation := by
  simp [determine_stage_working, decide_eq_true_eq]

/-- Python `str.lower()` on the ASCII strings used by the pipeline, written
over the character list so that it evaluates definitionally. -/
def strLower (s : String) : String := ⟨s.data.map Char.toLower⟩

/-- One row of the feedback log CSV (`results/feedback_log.csv`), as written
by the stage-4 scripts: `image, similarity, predicted_stage, is_correct,
corrected_stage`.  `is_correct` and `corrected_stage` are free-text cells a
reviewer fills in; a missing (NaN) cell is `none`. -/
structure FeedbackRecord where
  image : String
  similarity : ℚ
  predicted_stage : String
  is_correct : Option String
  corrected_stage : Option String
deriving DecidableEq, Repr

/-- Rounding of a real number to the nearest integer, a tie at .5 resolved
to the even integer (the rule Python `round` applies at exact ties). -/
noncomputable def halfEvenRound (x : ℝ) : ℤ :=
  if Int.fract x < 1/2 then ⌊x⌋
  else if 1/2 < Int.fract x then ⌈x⌉
  else if Even ⌊x⌋ then ⌊x⌋ else ⌊x⌋ + 1

/-- `round(x, 3)`, as both stage-5 scripts apply to every band value,
modelled on the exact value.  The scripts round an IEEE double instead: the
double carries a representation error, so at a decimal tie such as 0.0005
Python rounds by the side of the tie the double lands on, not by the even
rule.  The two roundings coincide whenever `1000 * x` is not within the
double representation error of a half-integer; every concrete equality
proved about `pyRound3` in this file is at such a coincidence point, and
the quantified band theorem relies only on the bound
`abs (pyRound3 x - x) ≤ 1/1000`, which holds for the scripts as well. -/
noncomputable def pyRound3 (x : ℝ) : ℝ := (halfEvenRound (1000 * x) : ℝ) / 1000

/-- A threshold band, the value stored per stage in
`adaptive_thresholds.json` by both stage-5 scripts. -/
structure ThresholdBand where
  mean_similarity : ℝ
  std_dev : ℝ
  recommended_min : ℝ
  recommended_max : ℝ
  sample_size : ℕ

/-- `np.mean` of a list of scores, exact over the reals. -/
noncomputable def npMean (sims : List ℚ) : ℝ :=
  ((sims.map (fun q => (q : ℝ))).sum) / (sims.length : ℝ)

/-- `np.std` of a list of scores (population convention, divisor `N`),
exact over the reals. -/
noncomputable def npStd (sims : List ℚ) : ℝ :=
  Real.sqrt (((sims.map (fun q => ((q : ℝ) - npMean sims)^2)).sum) / (sims.length : ℝ))

/-- The band both stage-5 scripts build from a non-empty score list:
`mean_similarity = round(mean, 3)`, `std_dev = round(std, 3)`,
`recommended_min = round(mean - std, 3)`, `recommended_max = round(mean + std, 3)`,
`sample_size = len(scores)`. -/
noncomputable def mkBand (sims : List ℚ) : ThresholdBand where
  mean_similarity := pyRound3 (npMean sims)
  std_dev := pyRound3 (npStd sims)
  recommended_min := pyRound3 (npMean sims - npStd sims)
  recommended_max := pyRound3 (npMean sims + npStd sims)
  sample_size := sims.length

/-- The fixed stage iteration order of both stage-5 scripts:
`stages = ["foundation", "mounting", "installation"]`. -/
def stagesList : List String := ["foundation", "mounting", "installation"]

/-- `stage5_working.py`: membership test of the `correct_predictions`
partition, `df[df["is_correct"].str.lower() == "yes"]` (a missing cell is
NaN and never equals `"yes"`). -/
def isYes (r : FeedbackRecord) : Bool :=
  match r.is_correct with
  | some s => strLower s == "yes"
  | none => false

/-- `stage5_working.py`: membership test of the `incorrect_predictions`
partition, `df[df["is_correct"].str.lower() == "no"]`. -/
def isNo (r : FeedbackRecord) : Bool :=
  match r.is_correct with
  | some s => strLower s == "no"
  | none => false

/-- `stage5_working.py`: the `stage_similarities` list for one stage —
similarity scores of correct predictions whose raw `predicted_stage` equals
the stage, followed by scores of incorrect predictions whose raw
`corrected_stage` equals the stage (a NaN cell matches no stage). -/
def stage_similarities (log : List FeedbackRecord) (stage : String) : List ℚ :=
  (((log.filter isYes).filter (fun r => r.predicted_stage == stage)).map
      (fun r => r.similarity))
  ++ (((log.filter isNo).filter (fun r =>
        match r.corrected_stage with
        | some c => c == stage
        | none => false)).map (fun r => r.similarity))

/-- `stage5_working.py`: the `adaptive_thresholds` table, in the insertion
order of the Python dict — for each stage of `stagesList` in order, a band
iff its score list is non-empty. -/
noncomputable def adaptive_thresholds (log : List FeedbackRecord) :
    List (String × ThresholdBand) :=
  stagesList.filterMap (fun stage =>
    if (stage_similarities log stage).isEmpty then none
    else some (stage, mkBand (stage_similarities log stage)))

/-- `stage5_self_learning.py` cleaning of `is_correct`:
`df["is_correct"].fillna("").str.lower()`. -/
def cleanedIsCorrect (r : FeedbackRecord) : String :=
  strLower (r.is_correct.getD "")

/-- `stage5_self_learning.py` cleaning of `corrected_stage`:
`df["corrected_stage"].fillna("").str.lower()`. -/
def cleanedCorrected (r : FeedbackRecord) : String :=
  strLower (r.corrected_stage.getD "")

/-- `stage5_self_learning.py`: membership test of the `correct` partition
after cleaning. -/
def isYesSL (r : FeedbackRecord) : Bool := cleanedIsCorrect r == "yes"

/-- `stage5_self_learning.py`: membership test of the `incorrect` partition
after cleaning. -/
def isNoSL (r : FeedbackRecord) : Bool := cleanedIsCorrect r == "no"

/-- `stage5_self_learning.py`: the `stage_sims` list for one stage, on the
cleaned (lower-cased, NaN-to-empty) stage columns. -/
def stage_sims (log : List FeedbackRecord) (stage : String) : List ℚ :=
  (((log.filter isYesSL).filter (fun r => strLower r.predicted_stage == stage)).map
      (fun r => r.similarity))
  ++ (((log.filter isNoSL).filter (fun r => cleanedCorrected r == stage)).map
      (fun r => r.similarity))

/-- `stage5_self_learning.py`: the `stage_thresholds` dict, in insertion
order — for each stage of `stagesList` in order, a band iff `stage_sims`
is non-empty. -/
noncomputable def stage_thresholds (log : List FeedbackRecord) :
    List (String × ThresholdBand) :=
  stagesList.filterMap (fun stage =>
    if (stage_sims log stage).isEmpty then none
    else some (stage, mkBand (stage_sims log stage)))

/-- Outcome of one run of `stage5_self_learning.py` on an in-memory log:
either the script terminates the process with `raise SystemExit(code)`
after printing a message, or it reaches the end and writes a threshold
table. -/
inductive SLOutcome where
  | sysExit (code : ℕ) (msg : String)
  | table (t : List (String × ThresholdBand))

/-- `stage5_self_learning.py` control flow after the feedback CSV is read:
an empty frame raises `SystemExit(0)` ("Feedback file is empty."); a frame
with no incorrect rows raises `SystemExit(0)` ("All feedback entries are
correct - no threshold tuning needed."); otherwise the `stage_thresholds`
table is computed and written out. -/
noncomputable def stage5_self_learning_run (log : List FeedbackRecord) : SLOutcome :=
  if log.isEmpty then
    .sysExit 0 "Feedback file is empty."
  else if (log.filter isNoSL).isEmpty then
    .sysExit 0 "All feedback entries are correct - no threshold tuning needed."
  else
    .table (stage_thresholds log)

/-- Whether a stage-5 run reached the end and produced a threshold table
(as opposed to terminating the process early). -/
def SLOutcome.producesTable : SLOutcome → Bool
  | .sysExit _ _ => false
  | .table _ => true

theorem stageRank_le_two (s : Stage) : stageRank s ≤ 2 := by
  cases s <;> simp [stageRank]

theorem determine_stage_mono_finite (a b : ℚ) (h : a < b) :
    stageRank (determine_stage (.finite a)) ≤ stageRank (determine_stage (.finite b)) := by
  rw [determine_stage_finite, determine_stage_finite]
  rcases lt_or_le (80/100 : ℚ) b with hb | hb
  · rw [if_pos hb]
    split_ifs <;> simp [stageRank]
  · rw [if_neg (by linarith : ¬ (80/100 : ℚ) < a), if_neg (not_lt.2 hb)]
    rcases le_or_lt (60/100 : ℚ) b with hb2 | hb2
    · rw [if_pos ((⟨hb2, hb⟩ : (60/100 : ℚ) ≤ b ∧ b ≤ 80/100))]
      split_ifs <;> simp [stageRank]
    · rw [if_neg (by intro hc; linarith [hc.1] : ¬((60/100 : ℚ) ≤ a ∧ a ≤ 80/100)),
          if_neg (by intro hc; linarith [hc.1] : ¬((60/100 : ℚ) ≤ b ∧ b ≤ 80/100))]

theorem determine_stage_working_mono_finite (a b : ℚ) (h : a < b) :
    stageRank (determine_stage_working (.finite a)) ≤
      stageRank (determine_stage_working (.finite b)) := by
  rw [determine_stage_working_finite, determine_stage_working_finite]
  rcases lt_or_le (80/100 : ℚ) b with hb | hb
  · rw [if_pos hb]
    split_ifs <;> simp [stageRank]
  · rw [if_neg (by linarith : ¬ (80/100 : ℚ) < a), if_neg (not_lt.2 hb)]
    rcases le_or_lt (70/100 : ℚ) b with hb2 | hb2
    · rw [if_pos hb2]
      split_ifs <;> simp [stageRank]
    · rw [if_neg (by linarith : ¬ (70/100 : ℚ) ≤ a), if_neg (not_le.2 hb2)]

/-- C1: the fixed cut-points classifier (`determine_stage` of
`stage3_rule_based_analysis.py`) maps every finite score as specified:
strictly above 0.80 to Installation, in [0.60, 0.80] to Mounting, below
0.60 to Foundation; in particular 0.85 ↦ Installation, 0.70 ↦ Mounting and
0.40 ↦ Foundation, on both observed variants. -/
theorem claim_C1_fixed_cut_points (q : ℚ) :
    (80/100 < q → determine_stage (.finite q) = .installation) ∧
    (60/100 ≤ q ∧ q ≤ 80/100 → determine_stage (.finite q) = .mounting) ∧
    (q < 60/100 → determine_stage (.finite q) = .foundation) ∧
    (determine_stage (.finite (85/100)) = .installation ∧
     determine_stage (.finite (70/100)) = .mounting ∧
     determine_stage (.finite (40/100)) = .foundation) ∧
    (determine_stage_working (.finite (85/100)) = .installation ∧
     determine_stage_working (.finite (70/100)) = .mounting ∧
     determine_stage_working (.finite (40/100)) = .foundation) := by
  refine ⟨?_, ?_, ?_,
    ⟨by rw [determine_stage_finite]; norm_num,
     by rw [determine_stage_finite]; norm_num,
     by rw [determine_stage_finite]; norm_num⟩,
    ⟨by rw [determine_stage_working_finite]; norm_num,
     by rw [determine_stage_working_finite]; norm_num,
     by rw [determine_stage_working_finite]; norm_num⟩⟩
  · intro hq
    rw [determine_stage_finite, if_pos hq]
  · intro hq
    rw [determine_stage_finite, if_neg (by linarith [hq.2] : ¬ (80/100 : ℚ) < q),
        if_pos hq]
  · intro hq
    rw [determine_stage_finite, if_neg (by linarith : ¬ (80/100 : ℚ) < q),
        if_neg (by intro hc; linarith [hc.1] : ¬((60/100 : ℚ) ≤ q ∧ q ≤ 80/100))]

theorem claim_C1_witness :
    determine_stage (.finite (85/100)) = .installation ∧
    determine_stage (.finite (70/100)) = .mounting ∧
    determine_stage (.finite (40/100)) = .foundation :=
  ⟨(claim_C1_fixed_cut_points (85/100)).1 (by norm_num),
   (claim_C1_fixed_cut_points (70/100)).2.1 (by norm_num),
   (claim_C1_fixed_cut_points (40/100)).2.2.1 (by norm_num)⟩

/-- C5 counterexample: `determine_stage(NaN)` does not fail — both observed
variants return the stage label Foundation on NaN. -/
theorem claim_C5_counterexample :
    determine_stage .nan = .foundation ∧
    determine_stage_working .nan = .foundation := by
  refine ⟨by decide, by decide⟩

/-- C5 (amended): classify applied to a non-finite score returns a
StageLabel instead of failing: NaN and negative infinity fall through both
comparisons and yield Foundation, positive infinity yields Installation, in
both observed variants; the code defines no InvalidScore error at all. -/
theorem claim_C5_amended :
    (determine_stage .nan = .foundation ∧
     determine_stage .negInf = .foundation ∧
     determine_stage .posInf = .installation) ∧
    (determine_stage_working .nan = .foundation ∧
     determine_stage_working .negInf = .foundation ∧
     determine_stage_working .posInf = .installation) := by
  refine ⟨⟨by decide, by decide, by decide⟩, ⟨by decide, by decide, by decide⟩⟩

/-- C6: for every pair of float scores with `a < b` (Python semantics), the
stage assigned to `a` is of lower or equal construction-maturity rank than
the stage assigned to `b`, for both observed classifier variants. -/
theorem claim_C6_monotone (a b : PyFloat) (h : PyFloat.lt a b = true) :
    stageRank (determine_stage a) ≤ stageRank (determine_stage b) ∧
    stageRank (determine_stage_working a) ≤ stageRank (determine_stage_working b) := by
  cases a with
  | nan => simp [PyFloat.lt] at h
  | posInf => cases b <;> simp [PyFloat.lt] at h
  | negInf =>
      have h1 : determine_stage .negInf = .foundation := by decide
      have h2 : determine_stage_working .negInf = .foundation := by decide
      rw [h1, h2]
      exact ⟨Nat.zero_le _, Nat.zero_le _⟩
  | finite qa =>
      cases b with
      | nan => simp [PyFloat.lt] at h
      | negInf => simp [PyFloat.lt] at h
      | posInf =>
          have h1 : determine_stage .posInf = .installation := by decide
          have h2 : determine_stage_working .posInf = .installation := by decide
          rw [h1, h2]
          exact ⟨stageRank_le_two _, stageRank_le_two _⟩
      | finite qb =>
          simp only [PyFloat.lt_finite_finite, decide_eq_true_eq] at h
          exact ⟨determine_stage_mono_finite qa qb h,
                 determine_stage_working_mono_finite qa qb h⟩

theorem claim_C6_witness :
    PyFloat.lt (.finite (1/2)) (.finite (9/10)) = true ∧
    (stageRank (determine_stage (.finite (1/2))) ≤
       stageRank (determine_stage (.finite (9/10))) ∧
     stageRank (determine_stage_working (.finite (1/2))) ≤
       stageRank (determine_stage_working (.finite (9/10)))) :=
  ⟨by simp only [PyFloat.lt_finite_finite, decide_eq_true_eq]; norm_num,
   claim_C6_monotone (.finite (1/2)) (.finite (9/10))
     (by simp only [PyFloat.lt_finite_finite, decide_eq_true_eq]; norm_num)⟩

/-- C9: on every finite score in [0.60, 0.70) the rule-based variant
returns Mounting while the working variant returns Foundation, and on every
finite score outside that interval the two variants agree. -/
theorem claim_C9_variants_disagree :
    (∀ q : ℚ, 60/100 ≤ q → q < 70/100 →
        determine_stage (.finite q) = .mounting ∧
        determine_stage_working (.finite q) = .foundation) ∧
    (∀ q : ℚ, ¬(60/100 ≤ q ∧ q < 70/100) →
        determine_stage (.finite q) = determine_stage_working (.finite q)) := by
  constructor
  · intro q h1 h2
    constructor
    · rw [determine_stage_finite, if_neg (by linarith : ¬ (80/100 : ℚ) < q),
          if_pos ⟨h1, by linarith⟩]
    · rw [determine_stage_working_finite, if_neg (by linarith : ¬ (80/100 : ℚ) < q),
          if_neg (not_le.2 h2)]
  · intro q h
    push_neg at h
    rw [determine_stage_finite, determine_stage_working_finite]
    rcases lt_or_le (80/100 : ℚ) q with h80 | h80
    · rw [if_pos h80, if_pos h80]
    · rcases le_or_lt (70/100 : ℚ) q with h70 | h70
      · rw [if_neg (not_lt.2 h80), if_neg (not_lt.2 h80),
            if_pos ((⟨by linarith, h80⟩ : (60/100 : ℚ) ≤ q ∧ q ≤ 80/100)), if_pos h70]
      · have h60 : ¬ (60/100 : ℚ) ≤ q := fun hc => absurd (h hc) (not_le.2 h70)
        rw [if_neg (not_lt.2 h80), if_neg (not_lt.2 h80),
            if_neg (show ¬((60/100 : ℚ) ≤ q ∧ q ≤ 80/100) from fun hc => absurd hc.1 h60),
            if_neg (not_le.2 h70)]

theorem claim_C9_witness :
    (determine_stage (.finite (13/20)) = .mounting ∧
     determine_stage_working (.finite (13/20)) = .foundation) ∧
    determine_stage (.finite (9/10)) = determine_stage_working (.finite (9/10)) :=
  ⟨claim_C9_variants_disagree.1 (13/20) (by norm_num) (by norm_num),
   claim_C9_variants_disagree.2 (9/10) (by norm_num)⟩

/-- C10: both observed `determine_stage` variants are total over all float
inputs and never signal an error — every input, NaN and the infinities
included, is mapped to exactly one of the three labels; NaN and negative
infinity fall through both comparisons to Foundation, and positive infinity
is classified as Installation. -/
theorem claim_C10_total_on_floats :
    (∀ x : PyFloat,
        determine_stage x = .foundation ∨ determine_stage x = .mounting ∨
          determine_stage x = .installation) ∧
    (∀ x : PyFloat,
        determine_stage_working x = .foundation ∨
          determine_stage_working x = .mounting ∨
          determine_stage_working x = .installation) ∧
    (determine_stage .nan = .foundation ∧
     determine_stage .negInf = .foundation ∧
     determine_stage .posInf = .installation) ∧
    (determine_stage_working .nan = .foundation ∧
     determine_stage_working .negInf = .foundation ∧
     determine_stage_working .posInf = .installation) := by
  refine ⟨?_, ?_, ⟨by decide, by decide, by decide⟩, ⟨by decide, by decide, by decide⟩⟩
  · intro x
    unfold determine_stage
    split_ifs <;> simp
  · intro x
    unfold determine_stage_working
    split_ifs <;> simp

theorem halfEvenRound_intCast (n : ℤ) : halfEvenRound (n : ℝ) = n := by
  unfold halfEvenRound
  rw [Int.fract_intCast]
  norm_num

theorem pyRound3_eq_self (x : ℝ) (n : ℤ) (h : 1000 * x = (n : ℝ)) :
    pyRound3 x = x := by
  unfold pyRound3
  rw [h, halfEvenRound_intCast]
  linarith

theorem pyRound3_zero : pyRound3 0 = 0 :=
  pyRound3_eq_self 0 0 (by norm_num)

theorem npMean_singleton (q : ℚ) : npMean [q] = (q : ℝ) := by
  simp [npMean]

theorem npStd_singleton (q : ℚ) : npStd [q] = 0 := by
  simp [npStd, npMean]

theorem mkBand_singleton (q : ℚ) (n : ℤ) (h : 1000 * (q : ℝ) = (n : ℝ)) :
    mkBand [q] = ⟨(q : ℝ), 0, (q : ℝ), (q : ℝ), 1⟩ := by
  unfold mkBand
  rw [npMean_singleton, npStd_singleton]
  simp only [sub_zero, add_zero]
  rw [pyRound3_eq_self _ n h, pyRound3_zero]
  rfl

/-- C4 counterexample: on the empty feedback log, `stage5_self_learning.py`
raises `SystemExit(0)` — a process termination, not a typed
`EmptyFeedbackLog` error value returned to the caller (no such error type
exists in the code). -/
theorem claim_C4_counterexample :
    stage5_self_learning_run [] = .sysExit 0 "Feedback file is empty." := rfl

/-- C4 (amended): recompute applied to the empty feedback log prints
"Feedback file is empty." and terminates the process via `SystemExit(0)`,
producing no threshold table; the failure is a process exit, not a typed
recoverable error value returned to the caller. -/
theorem claim_C4_amended :
    stage5_self_learning_run [] = .sysExit 0 "Feedback file is empty." ∧
    SLOutcome.producesTable (stage5_self_learning_run []) = false :=
  ⟨rfl, rfl⟩

/-- C3 counterexample: on the single-record log
`[{predicted: mounting, score: 0.75, is_correct: yes}]` the
`stage5_self_learning.py` run does not yield any ThresholdTable — since no
record is marked incorrect it raises `SystemExit(0)` before the threshold
computation. -/
theorem claim_C3_counterexample :
    stage5_self_learning_run [⟨"img1", 3/4, "mounting", some "yes", none⟩] =
      .sysExit 0 "All feedback entries are correct - no threshold tuning needed." := rfl

/-- C3 (amended): on the single-record log
`[{predicted: mounting, score: 0.75, is_correct: yes}]` the
`stage5_working.py` threshold computation yields exactly a Mounting band
with mean 0.75, std_dev 0.0, recommended_min 0.75, recommended_max 0.75
and sample_size 1, and no Foundation or Installation entry; the
`stage5_self_learning.py` script instead exits early with `SystemExit(0)`
("no threshold tuning needed") because every record is marked correct, and
produces no table at all. -/
theorem claim_C3_single_record :
    adaptive_thresholds [⟨"img1", 3/4, "mounting", some "yes", none⟩] =
      [("mounting", mkBand [3/4])] ∧
    mkBand [(3/4 : ℚ)] = ⟨3/4, 0, 3/4, 3/4, 1⟩ ∧
    SLOutcome.producesTable
      (stage5_self_learning_run [⟨"img1", 3/4, "mounting", some "yes", none⟩]) = false := by
  refine ⟨rfl, ?_, rfl⟩
  rw [mkBand_singleton (3/4) 750 (by norm_num)]
  norm_num

theorem mem_adaptive_thresholds_ne_nil (log : List FeedbackRecord) (s : String)
    (b : ThresholdBand) (hmem : (s, b) ∈ adaptive_thresholds log) :
    stage_similarities log s ≠ [] := by
  intro hnil
  rcases List.mem_filterMap.1 hmem with ⟨st, _, hf⟩
  by_cases hE : (stage_similarities log st).isEmpty = true
  · rw [if_pos hE] at hf
    exact Option.noConfusion hf
  · rw [if_neg hE] at hf
    injection hf with h
    have hst : st = s := congrArg Prod.fst h
    subst hst
    exact hE (List.isEmpty_iff.2 hnil)

theorem mem_stage_thresholds_ne_nil (log : List FeedbackRecord) (s : String)
    (b : ThresholdBand) (hmem : (s, b) ∈ stage_thresholds log) :
    stage_sims log s ≠ [] := by
  intro hnil
  rcases List.mem_filterMap.1 hmem with ⟨st, _, hf⟩
  by_cases hE : (stage_sims log st).isEmpty = true
  · rw [if_pos hE] at hf
    exact Option.noConfusion hf
  · rw [if_neg hE] at hf
    injection hf with h
    have hst : st = s := congrArg Prod.fst h
    subst hst
    exact hE (List.isEmpty_iff.2 hnil)

theorem run_table_eq (log : List FeedbackRecord) (t : List (String × ThresholdBand))
    (h : stage5_self_learning_run log = .table t) : t = stage_thresholds log := by
  unfold stage5_self_learning_run at h
  split_ifs at h
  injection h with h
  exact h.symm

/-- C7: if no record of the log contributes a score to stage `s` — no
record marked correct has `s` as predicted stage and no record marked
incorrect has `s` as corrected stage, under each script's own column
cleaning — then the output table of either stage-5 script omits `s`
entirely: it contains no entry whose key is `s`. -/
theorem claim_C7_empty_stage_omitted (log : List FeedbackRecord) (s : String)
    (h1 : ∀ r ∈ log, ¬(isYes r = true ∧ r.predicted_stage = s))
    (h2 : ∀ r ∈ log, ¬(isNo r = true ∧ r.corrected_stage = some s))
    (h3 : ∀ r ∈ log, ¬(isYesSL r = true ∧ strLower r.predicted_stage = s))
    (h4 : ∀ r ∈ log, ¬(isNoSL r = true ∧ cleanedCorrected r = s)) :
    (∀ b, (s, b) ∉ adaptive_thresholds log) ∧
    (∀ t b, stage5_self_learning_run log = .table t → (s, b) ∉ t) := by
  have hw : stage_similarities log s = [] := by
    unfold stage_similarities
    rw [List.append_eq_nil]
    constructor
    · rw [List.map_eq_nil_iff, List.filter_eq_nil_iff]
      intro r hr hps
      have hrlog : r ∈ log := List.mem_of_mem_filter hr
      have hyes : isYes r = true := List.of_mem_filter hr
      exact h1 r hrlog ⟨hyes, by simpa using hps⟩
    · rw [List.map_eq_nil_iff, List.filter_eq_nil_iff]
      intro r hr hcs
      have hrlog : r ∈ log := List.mem_of_mem_filter hr
      have hno : isNo r = true := List.of_mem_filter hr
      cases hc : r.corrected_stage with
      | none => rw [hc] at hcs; exact Bool.noConfusion hcs
      | some c =>
          rw [hc] at hcs
          have : c = s := by simpa using hcs
          exact h2 r hrlog ⟨hno, by rw [hc, this]⟩
  have hsl : stage_sims log s = [] := by
    unfold stage_sims
    rw [List.append_eq_nil]
    constructor
    · rw [List.map_eq_nil_iff, List.filter_eq_nil_iff]
      intro r hr hps
      have hrlog : r ∈ log := List.mem_of_mem_filter hr
      have hyes : isYesSL r = true := List.of_mem_filter hr
      exact h3 r hrlog ⟨hyes, by simpa using hps⟩
    · rw [List.map_eq_nil_iff, List.filter_eq_nil_iff]
      intro r hr hcs
      have hrlog : r ∈ log := List.mem_of_mem_filter hr
      have hno : isNoSL r = true := List.of_mem_filter hr
      exact h4 r hrlog ⟨hno, by simpa using hcs⟩
  constructor
  · intro b hmem
    exact mem_adaptive_thresholds_ne_nil log s b hmem hw
  · intro t b hrun hmem
    rw [run_table_eq log t hrun] at hmem
    exact mem_stage_thresholds_ne_nil log s b hmem hsl

theorem claim_C7_witness :
    ("foundation", mkBand [(3/4 : ℚ)]) ∉
      adaptive_thresholds [⟨"img1", 3/4, "mounting", some "yes", none⟩] :=
  (claim_C7_empty_stage_omitted [⟨"img1", 3/4, "mounting", some "yes", none⟩] "foundation"
    (by decide) (by decide) (by decide) (by decide)).1 (mkBand [(3/4 : ℚ)])

theorem isYesSL_eq_isYes (r : FeedbackRecord) : isYesSL r = isYes r := by
  unfold isYesSL isYes cleanedIsCorrect
  cases r.is_correct <;> rfl

theorem isNoSL_eq_isNo (r : FeedbackRecord) : isNoSL r = isNo r := by
  unfold isNoSL isNo cleanedIsCorrect
  cases r.is_correct <;> rfl

theorem isYes_eq_false_of_isNo (r : FeedbackRecord) (h : isNo r = true) :
    isYes r = false := by
  unfold isNo at h
  unfold isYes
  cases hic : r.is_correct with
  | none => rfl
  | some s =>
      rw [hic] at h
      have hlow : strLower s = "no" := by simpa using h
      show (strLower s == "yes") = false
      rw [hlow]
      rfl

theorem filter_middle_false (p : FeedbackRecord → Bool) (pre post : List FeedbackRecord)
    (r : FeedbackRecord) (h : p r = false) :
    (pre ++ r :: post).filter p = (pre ++ post).filter p := by
  simp [List.filter_append, List.filter_cons, h]

theorem filter_middle_true (p : FeedbackRecord → Bool) (pre post : List FeedbackRecord)
    (r : FeedbackRecord) (h : p r = true) :
    (pre ++ r :: post).filter p = pre.filter p ++ r :: post.filter p := by
  simp [List.filter_append, List.filter_cons, h]

/-- C8 counterexample: a malformed record (`is_correct = "no"`, empty
`corrected_stage`) appended to an otherwise all-correct log makes
`stage5_self_learning.py` reach the threshold computation and produce a
table, while the same log with the malformed record removed makes the
script raise `SystemExit(0)` before computing anything — so the two runs do
not yield the same ThresholdTable. -/
theorem claim_C8_counterexample :
    SLOutcome.producesTable (stage5_self_learning_run
      [⟨"img1", 3/4, "mounting", some "yes", none⟩,
       ⟨"img2", 1/2, "foundation", some "no", some ""⟩]) = true ∧
    SLOutcome.producesTable (stage5_self_learning_run
      [⟨"img1", 3/4, "mounting", some "yes", none⟩]) = false :=
  ⟨rfl, rfl⟩

/-- C8 (amended): a record with `is_correct = "no"` and an empty or missing
`corrected_stage` contributes to no stage's sample set: removing it leaves
every stage's score list, and the computed threshold tables of both
scripts, unchanged.  However the record still counts for the
`stage5_self_learning.py` guards (the non-empty-log and the
any-incorrect-record checks), so removing it can change whether that script
reaches the threshold computation at all. -/
theorem claim_C8_malformed_excluded (pre post : List FeedbackRecord) (r : FeedbackRecord)
    (hno : isNo r = true)
    (hcor : r.corrected_stage = none ∨ r.corrected_stage = some "") :
    (∀ s, s ≠ "" → stage_similarities (pre ++ r :: post) s = stage_similarities (pre ++ post) s) ∧
    (∀ s, s ≠ "" → stage_sims (pre ++ r :: post) s = stage_sims (pre ++ post) s) ∧
    adaptive_thresholds (pre ++ r :: post) = adaptive_thresholds (pre ++ post) ∧
    stage_thresholds (pre ++ r :: post) = stage_thresholds (pre ++ post) := by
  have hyes : isYes r = false := isYes_eq_false_of_isNo r hno
  have hyessl : isYesSL r = false := by rw [isYesSL_eq_isYes]; exact hyes
  have hnosl : isNoSL r = true := by rw [isNoSL_eq_isNo]; exact hno
  have key_w : ∀ s, s ≠ "" →
      stage_similarities (pre ++ r :: post) s = stage_similarities (pre ++ post) s := by
    intro s hs
    have hq2 : (fun r' : FeedbackRecord =>
        match r'.corrected_stage with | some c => c == s | none => false) r = false := by
      rcases hcor with h | h <;> simp only [h]
      exact beq_eq_false_iff_ne.2 (Ne.symm hs)
    unfold stage_similarities
    rw [filter_middle_false isYes pre post r hyes,
        filter_middle_true isNo pre post r hno,
        filter_middle_false _ (pre.filter isNo) (post.filter isNo) r hq2]
    simp [List.filter_append]
  have key_sl : ∀ s, s ≠ "" →
      stage_sims (pre ++ r :: post) s = stage_sims (pre ++ post) s := by
    intro s hs
    have hq2 : (fun r' : FeedbackRecord => cleanedCorrected r' == s) r = false := by
      have hcc : cleanedCorrected r = "" := by
        unfold cleanedCorrected
        rcases hcor with h | h <;> rw [h] <;> rfl
      simp only [hcc]
      exact beq_eq_false_iff_ne.2 (Ne.symm hs)
    unfold stage_sims
    rw [filter_middle_false isYesSL pre post r hyessl,
        filter_middle_true isNoSL pre post r hnosl,
        filter_middle_false _ (pre.filter isNoSL) (post.filter isNoSL) r hq2]
    simp [List.filter_append]
  refine ⟨key_w, key_sl, ?_, ?_⟩
  · unfold adaptive_thresholds
    simp only [stagesList, List.filterMap_cons, List.filterMap_nil]
    rw [key_w "foundation" (by decide), key_w "mounting" (by decide),
        key_w "installation" (by decide)]
  · unfold stage_thresholds
    simp only [stagesList, List.filterMap_cons, List.filterMap_nil]
    rw [key_sl "foundation" (by decide), key_sl "mounting" (by decide),
        key_sl "installation" (by decide)]

theorem claim_C8_witness :
    isNo (⟨"img2", 1/2, "foundation", some "no", some ""⟩ : FeedbackRecord) = true ∧
    adaptive_thresholds
        [⟨"img1", 3/4, "mounting", some "yes", none⟩,
         ⟨"img2", 1/2, "foundation", some "no", some ""⟩] =
      adaptive_thresholds [⟨"img1", 3/4, "mounting", some "yes", none⟩] ∧
    stage_thresholds
        [⟨"img1", 3/4, "mounting", some "yes", none⟩,
         ⟨"img2", 1/2, "foundation", some "no", some ""⟩] =
      stage_thresholds [⟨"img1", 3/4, "mounting", some "yes", none⟩] :=
  ⟨by decide,
   (claim_C8_malformed_excluded [⟨"img1", 3/4, "mounting", some "yes", none⟩] []
      ⟨"img2", 1/2, "foundation", some "no", some ""⟩ (by decide) (Or.inr rfl)).2.2.1,
   (claim_C8_malformed_excluded [⟨"img1", 3/4, "mounting", some "yes", none⟩] []
      ⟨"img2", 1/2, "foundation", some "no", some ""⟩ (by decide) (Or.inr rfl)).2.2.2⟩

theorem npVar_nonneg (sims : List ℚ) :
    0 ≤ ((sims.map (fun q => ((q : ℝ) - npMean sims)^2)).sum) / (sims.length : ℝ) := by
  apply div_nonneg
  · apply List.sum_nonneg
    intro x hx
    rcases List.mem_map.1 hx with ⟨q, _, rfl⟩
    positivity
  · positivity

theorem npStd_sq (sims : List ℚ) :
    (npStd sims)^2 =
      ((sims.map (fun q => ((q : ℝ) - npMean sims)^2)).sum) / (sims.length : ℝ) :=
  Real.sq_sqrt (npVar_nonneg sims)

theorem abs_halfEvenRound_sub_le (y : ℝ) : |(halfEvenRound y : ℝ) - y| ≤ 1/2 := by
  have h0 : (0:ℝ) ≤ Int.fract y := Int.fract_nonneg y
  have h1 : Int.fract y < 1 := Int.fract_lt_one y
  have hfl : (⌊y⌋ : ℝ) = y - Int.fract y := by
    have := Int.self_sub_floor y
    linarith
  unfold halfEvenRound
  split_ifs with hlt hgt hev
  · rw [hfl, abs_le]
    constructor <;> linarith
  · have hcu : (⌈y⌉ : ℝ) ≤ (⌊y⌋ : ℝ) + 1 := by exact_mod_cast Int.ceil_le_floor_add_one y
    have hcl : y ≤ (⌈y⌉ : ℝ) := Int.le_ceil y
    rw [abs_le]
    constructor <;> linarith
  · have h2 : Int.fract y = 1/2 := le_antisymm (not_lt.1 hgt) (not_lt.1 hlt)
    rw [hfl, abs_le]
    constructor <;> linarith
  · have h2 : Int.fract y = 1/2 := le_antisymm (not_lt.1 hgt) (not_lt.1 hlt)
    push_cast
    rw [hfl, abs_le]
    constructor <;> linarith

theorem pyRound3_sub_abs_le (x : ℝ) : |pyRound3 x - x| ≤ 1/1000 := by
  unfold pyRound3
  have h := abs_halfEvenRound_sub_le (1000 * x)
  have heq : (halfEvenRound (1000 * x) : ℝ)/1000 - x
      = ((halfEvenRound (1000 * x) : ℝ) - 1000 * x)/1000 := by ring
  rw [heq, abs_div, abs_of_pos (by norm_num : (0:ℝ) < 1000),
      div_le_iff₀ (by norm_num : (0:ℝ) < 1000)]
  norm_num
  linarith

theorem mem_adaptive_thresholds_of_ne_nil (log : List FeedbackRecord) (s : String)
    (hs : s ∈ stagesList) (hne : stage_similarities log s ≠ []) :
    (s, mkBand (stage_similarities log s)) ∈ adaptive_thresholds log := by
  refine List.mem_filterMap.2 ⟨s, hs, ?_⟩
  have hE : (stage_similarities log s).isEmpty = false := by
    cases h : stage_similarities log s with
    | nil => exact absurd h hne
    | cons a l => rfl
  simp [hE]

theorem mem_stage_thresholds_of_ne_nil (log : List FeedbackRecord) (s : String)
    (hs : s ∈ stagesList) (hne : stage_sims log s ≠ []) :
    (s, mkBand (stage_sims log s)) ∈ stage_thresholds log := by
  refine List.mem_filterMap.2 ⟨s, hs, ?_⟩
  have hE : (stage_sims log s).isEmpty = false := by
    cases h : stage_sims log s with
    | nil => exact absurd h hne
    | cons a l => rfl
  simp [hE]

/-- C2 (amended): for every feedback log and every stage with a non-empty
sample set, the table contains a band for that stage.  The sample set is
exactly the scores of records marked correct whose predicted stage is the
stage together with the scores of records marked incorrect whose corrected
stage is the stage (under each script's own column cleaning), and the band
consists of the cardinality of the sample set and of the arithmetic mean,
the population (N-divisor) standard deviation, and mean minus/plus that
deviation, each rounded to 3 decimal places by Python `round` — so each
within 1/1000 of the exact statistic rather than equal to it.  Only the
1/1000 bound is asserted for the rounded values, since it holds regardless
of how a tie in the script's float rounding resolves. -/
theorem claim_C2_band_computation (log : List FeedbackRecord) (s : String)
    (hs : s ∈ stagesList) (hne : stage_similarities log s ≠ []) :
    (s, mkBand (stage_similarities log s)) ∈ adaptive_thresholds log ∧
    (stage_sims log s ≠ [] → (s, mkBand (stage_sims log s)) ∈ stage_thresholds log) ∧
    stage_similarities log s =
      ((log.filter (fun r => (r.predicted_stage == s) && isYes r)).map
          (fun r => r.similarity))
        ++ ((log.filter (fun r =>
              (match r.corrected_stage with | some c => c == s | none => false)
                && isNo r)).map (fun r => r.similarity)) ∧
    stage_sims log s =
      ((log.filter (fun r => (strLower r.predicted_stage == s) && isYesSL r)).map
          (fun r => r.similarity))
        ++ ((log.filter (fun r => (cleanedCorrected r == s) && isNoSL r)).map
          (fun r => r.similarity)) ∧
    ∃ μ σ : ℝ,
      μ = (((stage_similarities log s).map (fun q => (q : ℝ))).sum) /
            ((stage_similarities log s).length : ℝ) ∧
      0 ≤ σ ∧
      σ^2 = (((stage_similarities log s).map (fun q => ((q : ℝ) - μ)^2)).sum) /
            ((stage_similarities log s).length : ℝ) ∧
      |(mkBand (stage_similarities log s)).mean_similarity - μ| ≤ 1/1000 ∧
      |(mkBand (stage_similarities log s)).std_dev - σ| ≤ 1/1000 ∧
      |(mkBand (stage_similarities log s)).recommended_min - (μ - σ)| ≤ 1/1000 ∧
      |(mkBand (stage_similarities log s)).recommended_max - (μ + σ)| ≤ 1/1000 ∧
      (mkBand (stage_similarities log s)).sample_size = (stage_similarities log s).length := by
  refine ⟨mem_adaptive_thresholds_of_ne_nil log s hs hne,
          fun hne2 => mem_stage_thresholds_of_ne_nil log s hs hne2, ?_, ?_, ?_⟩
  · unfold stage_similarities
    rw [List.filter_filter, List.filter_filter]
  · unfold stage_sims
    rw [List.filter_filter, List.filter_filter]
  · exact ⟨npMean (stage_similarities log s), npStd (stage_similarities log s),
      rfl, Real.sqrt_nonneg _, npStd_sq _, pyRound3_sub_abs_le _, pyRound3_sub_abs_le _,
      pyRound3_sub_abs_le _, pyRound3_sub_abs_le _, rfl⟩

/-- C2 counterexample: the emitted band values are rounded to 3 decimal
places, so they are not in general the exact statistics.  On the log of
three correct Mounting records with scores 0.1, 0.2, 0.2, the exact
arithmetic mean is 1/6 = 0.1666..., but the emitted Mounting band has
`mean_similarity` 0.167.  The scaled value 166.66... is far from a
half-integer, so the exact-value model and the script's float `round`
provably produce the same 0.167 here. -/
theorem claim_C2_counterexample :
    adaptive_thresholds
        [⟨"img1", 1/10, "mounting", some "yes", none⟩,
         ⟨"img2", 2/10, "mounting", some "yes", none⟩,
         ⟨"img3", 2/10, "mounting", some "yes", none⟩] =
      [("mounting", mkBand [(1/10 : ℚ), 2/10, 2/10])] ∧
    npMean [(1/10 : ℚ), 2/10, 2/10] = 1/6 ∧
    (mkBand [(1/10 : ℚ), 2/10, 2/10]).mean_similarity = 167/1000 ∧
    (167/1000 : ℝ) ≠ 1/6 := by
  have hm : npMean [(1/10 : ℚ), 2/10, 2/10] = 1/6 := by
    unfold npMean
    norm_num
  refine ⟨rfl, hm, ?_, by norm_num⟩
  show pyRound3 (npMean [(1/10 : ℚ), 2/10, 2/10]) = 167/1000
  rw [hm]
  unfold pyRound3
  have h2 : (1000 : ℝ) * (1/6) = 500/3 := by norm_num
  rw [h2]
  have hfl : (⌊(500/3 : ℝ)⌋ : ℤ) = 166 := by
    rw [Int.floor_eq_iff]
    constructor <;> norm_num
  have hfr : Int.fract (500/3 : ℝ) = 2/3 := by
    rw [← Int.self_sub_floor, hfl]
    norm_num
  have hce : (⌈(500/3 : ℝ)⌉ : ℤ) = 167 := by
    rw [Int.ceil_eq_iff]
    constructor <;> norm_num
  unfold halfEvenRound
  rw [hfr, if_neg (by norm_num : ¬ (2/3 : ℝ) < 1/2),
      if_pos (by norm_num : (1/2 : ℝ) < 2/3), hce]
  norm_num

theorem claim_C2_witness :
    ("mounting",
      mkBand (stage_similarities
        [⟨"img1", 55/100, "foundation", some "no", some "mounting"⟩,
         ⟨"img2", 77/100, "mounting", some "yes", none⟩] "mounting")) ∈
      adaptive_thresholds
        [⟨"img1", 55/100, "foundation", some "no", some "mounting"⟩,
         ⟨"img2", 77/100, "mounting", some "yes", none⟩] ∧
    stage_similarities
        [⟨"img1", 55/100, "foundation", some "no", some "mounting"⟩,
         ⟨"img2", 77/100, "mounting", some "yes", none⟩] "mounting" =
      [77/100, 55/100] ∧
    (mkBand (stage_similarities
        [⟨"img1", 55/100, "foundation", some "no", some "mounting"⟩,
         ⟨"img2", 77/100, "mounting", some "yes", none⟩] "mounting")).sample_size = 2 ∧
    (mkBand (stage_similarities
        [⟨"img1", 55/100, "foundation", some "no", some "mounting"⟩,
         ⟨"img2", 77/100, "mounting", some "yes", none⟩] "mounting")).mean_similarity =
      66/100 := by
  refine ⟨(claim_C2_band_computation
      [⟨"img1", 55/100, "foundation", some "no", some "mounting"⟩,
       ⟨"img2", 77/100, "mounting", some "yes", none⟩] "mounting"
      (by decide) (by decide)).1, rfl, rfl, ?_⟩
  show pyRound3 (npMean (stage_similarities
      [⟨"img1", 55/100, "foundation", some "no", some "mounting"⟩,
       ⟨"img2", 77/100, "mounting", some "yes", none⟩] "mounting")) = 66/100
  have hmean : npMean (stage_similarities
      [⟨"img1", 55/100, "foundation", some "no", some "mounting"⟩,
       ⟨"img2", 77/100, "mounting", some "yes", none⟩] "mounting") = 33/50 := by
    show npMean [(77/100 : ℚ), 55/100] = 33/50
    unfold npMean
    norm_num
  rw [hmean, pyRound3_eq_self (33/50) 660 (by norm_num)]
  norm_num
